import Mathlib

/-!
Verification of the MT5 gRPC bridge server
(`docker/container/Metatrader/bridge.py`).

The bridge is a stateless RPC facade: each service method ensures the native
MetaTrader5 module is loaded, validates its parameters, delegates to the
native module, and marshals the result (dicts to JSON text, numpy arrays to a
bytes/dtype/shape descriptor, large symbol lists to 500-element chunks).

The embedding below models Python values with the inductive `PyVal`, the
native module with a record of oracle functions (`Native`), and the outcome
of the lazy module load with `Except String Native` (the `String` is
the import-failure reason).  Service methods become functions returning
`Except BridgeError (response × Bool)` where the `Bool` records whether a
native data call was made on that path.
-/

namespace MT5Bridge

/-- Python values as they occur in bridge results: JSON scalars, lists and
dicts, plus the two duck-typed shapes the marshaler special-cases —
namedtuple-like objects carrying an `_asdict` view (`record`) and numpy
arrays carrying a `tolist` view (`ndarray`).  Numbers are modeled as
integers. -/
inductive PyVal where
  | pyNone
  | pyBool (b : Bool)
  | pyInt (i : Int)
  | pyStr (s : String)
  | pyList (xs : List PyVal)
  | pyDict (fields : List (String × PyVal))
  | record (fields : List (String × PyVal))
  | ndarray (xs : List PyVal)

/-- The `_asdict()` image of a namedtuple-like native result. -/
abbrev RecordDict := List (String × PyVal)

/-- Hex digit used by the JSON string escaper. -/
def hexDigit (n : Nat) : Char :=
  if n < 10 then Char.ofNat (48 + n) else Char.ofNat (87 + n)

/-- Four-digit lowercase hex, as in `json.dumps` unicode escapes. -/
def hex4 (n : Nat) : String :=
  String.mk [hexDigit (n / 4096 % 16), hexDigit (n / 256 % 16),
    hexDigit (n / 16 % 16), hexDigit (n % 16)]

/-- Escape one character the way `json.dumps` (default `ensure_ascii=True`)
does: short escapes for quote, backslash and control characters, unicode
escapes for the rest of the non-printable/non-ASCII range. -/
def jsonEscapeChar (c : Char) : String :=
  if c = Char.ofNat 34 then "\\\""
  else if c = Char.ofNat 92 then "\\\\"
  else if c = Char.ofNat 10 then "\\n"
  else if c = Char.ofNat 9 then "\\t"
  else if c = Char.ofNat 13 then "\\r"
  else if c = Char.ofNat 8 then "\\b"
  else if c = Char.ofNat 12 then "\\f"
  else if c.toNat < 32 ∨ 126 < c.toNat then
    if c.toNat < 65536 then "\\u" ++ hex4 c.toNat
    else
      "\\u" ++ hex4 (55296 + (c.toNat - 65536) / 1024) ++
        "\\u" ++ hex4 (56320 + (c.toNat - 65536) % 1024)
  else String.singleton c

/-- JSON string literal encoding. -/
def jsonEncodeString (s : String) : String :=
  "\"" ++ String.join (s.toList.map jsonEscapeChar) ++ "\""

mutual

/-- `json.dumps(v, default=serialize)` where `serialize` is the local helper
of `_dict_to_json` (bridge.py lines 180-185): a namedtuple-like value is
replaced by its `_asdict()` mapping and a numpy value by its `tolist()`
list; everything else is serialized natively (separators default to
`", "` and `": "`). -/
def jsonDumps : PyVal → String
  | .pyNone => "null"
  | .pyBool true => "true"
  | .pyBool false => "false"
  | .pyInt i => toString i
  | .pyStr s => jsonEncodeString s
  | .pyList xs => "[" ++ String.intercalate ", " (jsonDumpsList xs) ++ "]"
  | .pyDict fs => "\x7b" ++ String.intercalate ", " (jsonDumpsFields fs) ++ "\x7d"
  | .record fs => "\x7b" ++ String.intercalate ", " (jsonDumpsFields fs) ++ "\x7d"
  | .ndarray xs => "[" ++ String.intercalate ", " (jsonDumpsList xs) ++ "]"

/-- Serialize the elements of a JSON array. -/
def jsonDumpsList : List PyVal → List String
  | [] => []
  | v :: vs => jsonDumps v :: jsonDumpsList vs

/-- Serialize the members of a JSON object. -/
def jsonDumpsFields : List (String × PyVal) → List String
  | [] => []
  | (k, v) :: fs => (jsonEncodeString k ++ ": " ++ jsonDumps v) :: jsonDumpsFields fs

end

mutual

/-- Specification-side value normalization (spec section 4.3,
`to_wire_text`): every nested record-like value flattened to a plain
mapping, every numeric-array-like value converted to a plain nested list.
Used to compare the code's serializer against the spec's description. -/
def pyFlatten : PyVal → PyVal
  | .pyNone => .pyNone
  | .pyBool b => .pyBool b
  | .pyInt i => .pyInt i
  | .pyStr s => .pyStr s
  | .pyList xs => .pyList (pyFlattenList xs)
  | .pyDict fs => .pyDict (pyFlattenFields fs)
  | .record fs => .pyDict (pyFlattenFields fs)
  | .ndarray xs => .pyList (pyFlattenList xs)

/-- Flatten a list of values. -/
def pyFlattenList : List PyVal → List PyVal
  | [] => []
  | v :: vs => pyFlatten v :: pyFlattenList vs

/-- Flatten the values of a field mapping. -/
def pyFlattenFields : List (String × PyVal) → List (String × PyVal)
  | [] => []
  | (k, v) :: fs => (k, pyFlatten v) :: pyFlattenFields fs

end

mutual

/-- Serializing a value with the `default=serialize` hook equals serializing
its fully flattened form: the hook realizes exactly the spec's recursive
flattening. -/
theorem jsonDumps_pyFlatten : ∀ v : PyVal, jsonDumps (pyFlatten v) = jsonDumps v
  | .pyNone => rfl
  | .pyBool b => by cases b <;> rfl
  | .pyInt _ => rfl
  | .pyStr _ => rfl
  | .pyList xs => by rw [pyFlatten, jsonDumps, jsonDumps, jsonDumpsList_pyFlatten xs]
  | .pyDict fs => by rw [pyFlatten, jsonDumps, jsonDumps, jsonDumpsFields_pyFlatten fs]
  | .record fs => by rw [pyFlatten, jsonDumps, jsonDumps, jsonDumpsFields_pyFlatten fs]
  | .ndarray xs => by rw [pyFlatten, jsonDumps, jsonDumps, jsonDumpsList_pyFlatten xs]

/-- List version of `jsonDumps_pyFlatten`. -/
theorem jsonDumpsList_pyFlatten :
    ∀ xs : List PyVal, jsonDumpsList (pyFlattenList xs) = jsonDumpsList xs
  | [] => rfl
  | v :: vs => by
      rw [pyFlattenList, jsonDumpsList, jsonDumpsList, jsonDumps_pyFlatten v,
        jsonDumpsList_pyFlatten vs]

/-- Field-mapping version of `jsonDumps_pyFlatten`. -/
theorem jsonDumpsFields_pyFlatten :
    ∀ fs : List (String × PyVal), jsonDumpsFields (pyFlattenFields fs) = jsonDumpsFields fs
  | [] => rfl
  | (k, v) :: fs => by
      rw [pyFlattenFields, jsonDumpsFields, jsonDumpsFields, jsonDumps_pyFlatten v,
        jsonDumpsFields_pyFlatten fs]

end

/-- `MT5ServiceServicer._dict_to_json` (bridge.py lines 175-187): `None`
becomes the empty string, any other dict is passed to `json.dumps` with the
`serialize` default. -/
def _dict_to_json (data : Option RecordDict) : String :=
  match data with
  | none => ""
  | some d => jsonDumps (.pyDict d)

/-- `MT5ServiceServicer._validate_symbol` (bridge.py lines 126-131):
`if not symbol` — only the empty string is falsy. -/
def _validate_symbol (symbol : String) : Bool :=
  if symbol.isEmpty then false else true

/-- `MT5ServiceServicer._validate_count` (bridge.py lines 133-138). -/
def _validate_count (count : Int) : Bool :=
  if count ≤ 0 then false else true

/-- The `datetime | int` argument of `_validate_date_range`: either an
epoch-seconds number or a datetime, whose `.timestamp()` is taken. -/
inductive DateVal where
  | epoch (seconds : Int)
  | dt (timestampSeconds : Int)
deriving DecidableEq

/-- The normalization performed on each bound (bridge.py lines 147-156). -/
def DateVal.norm : DateVal → Int
  | .epoch i => i
  | .dt t => t

/-- `MT5ServiceServicer._validate_date_range` (bridge.py lines 140-163). -/
def _validate_date_range (date_from date_to : DateVal) : Bool :=
  if date_from.norm > date_to.norm then false else true

/-- The chunk loop of `SymbolsGet` (bridge.py lines 532-536):
`for i in range(0, total, chunk_size): items[i : i + chunk_size]`.
The `k = 0` guard only serves totality; the code always uses `k = 500`. -/
def chunkList (xs : List α) (k : Nat) : List (List α) :=
  if h : xs.isEmpty || k == 0 then []
  else xs.take k :: chunkList (xs.drop k) k
termination_by xs.length
decreasing_by
  simp only [Bool.or_eq_true, beq_iff_eq, List.isEmpty_iff, not_or] at h
  rw [List.length_drop]
  have : 0 < xs.length := List.length_pos.mpr h.1
  omega

/-- Serialization of one chunk (bridge.py lines 535-536):
`json.dumps([s._asdict() for s in chunk], default=str)`.  The `default=str`
hook only fires on values that are not natively serializable; within this
value model every `PyVal` is serializable, so plain `jsonDumps` is used. -/
def chunkText (chunk : List RecordDict) : String :=
  jsonDumps (.pyList (chunk.map .pyDict))

/-- The `SymbolsResponse` message: total count plus serialized chunks. -/
structure SymbolsResponse where
  total : Nat
  chunks : List String
deriving DecidableEq

/-- The marshaling core of `SymbolsGet` (bridge.py lines 524-539), applied
to the native `symbols_get` result: `None` yields `(0, [])`, otherwise the
materialized sequence is chunked 500 at a time. -/
def symbolsGetCore (result : Option (List RecordDict)) : SymbolsResponse :=
  match result with
  | none => ⟨0, []⟩
  | some items => ⟨items.length, (chunkList items 500).map chunkText⟩

/-- `InitRequest`: the six optional parameters of `Initialize`.  The five
`optional`-declared fields are presence-tracked (`HasField`); `portable` is
read as a plain value (`request.portable`), which defaults to `false` when
the caller did not set it. -/
structure InitRequest where
  path : Option String
  login : Option Int
  password : Option String
  server : Option String
  timeout : Option Int
  portable : Option Bool

/-- The value the code reads as `request.portable`: protobuf returns the
field's default `false` when it was not supplied. -/
def InitRequest.portableVal (r : InitRequest) : Bool :=
  r.portable.getD false

/-- The kwargs built by `Initialize` (bridge.py lines 265-277): one
`if request.HasField(...)` per presence-tracked parameter, but
`if request.portable:` — a truthiness test on the value — for the last. -/
def initKwargs (r : InitRequest) : List (String × PyVal) :=
  (match r.path with | some p => [("path", .pyStr p)] | none => []) ++
  (match r.login with | some l => [("login", .pyInt l)] | none => []) ++
  (match r.password with | some pw => [("password", .pyStr pw)] | none => []) ++
  (match r.server with | some s => [("server", .pyStr s)] | none => []) ++
  (match r.timeout with | some t => [("timeout", .pyInt t)] | none => []) ++
  (if r.portableVal then [("portable", .pyBool true)] else [])

/-- `PositionsRequest` / `OrdersRequest`: three presence-tracked filters. -/
structure PositionsRequest where
  symbol : Option String
  group : Option String
  ticket : Option Int

/-- The kwargs built identically by `PositionsGet` (bridge.py lines 812-818)
and `OrdersGet` (lines 851-857): each filter is first read as
`request.x if request.HasField("x") else None` and then gated by `if x:` —
a truthiness test, so a present-but-empty string or zero ticket is dropped
exactly like an absent one. -/
def sgtKwargs (r : PositionsRequest) : List (String × PyVal) :=
  (match r.symbol with
    | some s => if s.isEmpty then [] else [("symbol", .pyStr s)]
    | none => []) ++
  (match r.group with
    | some g => if g.isEmpty then [] else [("group", .pyStr g)]
    | none => []) ++
  (match r.ticket with
    | some t => if t = 0 then [] else [("ticket", .pyInt t)]
    | none => [])

/-- `HistoryRequest`: presence-tracked date bounds and filters, shared by
`HistoryOrdersGet` and `HistoryDealsGet`. -/
structure HistoryRequest where
  date_from : Option Int
  date_to : Option Int
  group : Option String
  ticket : Option Int
  position : Option Int

/-- The kwargs built by `HistoryOrdersGet` (bridge.py lines 901-907) and
`HistoryDealsGet` (lines 955-961): group/ticket/position, each gated by a
truthiness test after the presence check. -/
def historyKwargs (r : HistoryRequest) : List (String × PyVal) :=
  (match r.group with
    | some g => if g.isEmpty then [] else [("group", .pyStr g)]
    | none => []) ++
  (match r.ticket with
    | some t => if t = 0 then [] else [("ticket", .pyInt t)]
    | none => []) ++
  (match r.position with
    | some p => if p = 0 then [] else [("position", .pyInt p)]
    | none => [])

/-- The full native call shape of the history `_get` methods (bridge.py
lines 963-970): when both date bounds are present (`is not None` — a
presence test, not a truthiness test) they are passed positionally in
addition to the kwargs; otherwise only the kwargs are passed. -/
def historyCallArgs (r : HistoryRequest) : Option (Int × Int) × List (String × PyVal) :=
  match r.date_from, r.date_to with
  | some f, some t => (some (f, t), historyKwargs r)
  | _, _ => (none, historyKwargs r)

/-- Whitespace skipping of the JSON parser. -/
def skipWs : List Char → List Char
  | c :: cs =>
      if c = Char.ofNat 32 ∨ c = Char.ofNat 9 ∨ c = Char.ofNat 10 ∨ c = Char.ofNat 13
      then skipWs cs else c :: cs
  | [] => []

/-- Body of a JSON string literal, after the opening quote.  Unicode
`\u` escapes are outside this model. -/
def parseStringRest : List Char → Option (String × List Char)
  | [] => none
  | c :: rest =>
    if c = Char.ofNat 34 then some ("", rest)
    else if c = Char.ofNat 92 then
      match rest with
      | [] => none
      | e :: rest2 =>
        (if e = Char.ofNat 34 then some (Char.ofNat 34)
         else if e = Char.ofNat 92 then some (Char.ofNat 92)
         else if e = Char.ofNat 47 then some (Char.ofNat 47)
         else if e = 'n' then some (Char.ofNat 10)
         else if e = 't' then some (Char.ofNat 9)
         else if e = 'r' then some (Char.ofNat 13)
         else if e = 'b' then some (Char.ofNat 8)
         else if e = 'f' then some (Char.ofNat 12)
         else none).bind fun d =>
          (parseStringRest rest2).map fun (s, r) => (String.singleton d ++ s, r)
    else (parseStringRest rest).map fun (s, r) => (String.singleton c ++ s, r)

/-- A nonempty digit run, folded to a number. -/
def parseDigits (cs : List Char) : Option (Nat × List Char) :=
  let ds := cs.takeWhile Char.isDigit
  if ds.isEmpty then none
  else some (ds.foldl (fun n c => 10 * n + (c.toNat - 48)) 0, cs.dropWhile Char.isDigit)

mutual

/-- A fuel-indexed recursive-descent model of `json.loads` on one value.
Number grammar is restricted to integers (the float production of the
stdlib parser is outside this model, as are `\u` escapes). -/
def parseVal : Nat → List Char → Option (PyVal × List Char)
  | 0, _ => none
  | fuel + 1, cs =>
    match skipWs cs with
    | 'n' :: 'u' :: 'l' :: 'l' :: rest => some (.pyNone, rest)
    | 't' :: 'r' :: 'u' :: 'e' :: rest => some (.pyBool true, rest)
    | 'f' :: 'a' :: 'l' :: 's' :: 'e' :: rest => some (.pyBool false, rest)
    | '"' :: rest => (parseStringRest rest).map fun (s, r) => (.pyStr s, r)
    | '[' :: rest =>
      (match skipWs rest with
        | ']' :: rest2 => some (.pyList [], rest2)
        | other => (parseArrItems fuel other).map fun (vs, r) => (.pyList vs, r))
    | '\x7b' :: rest =>
      (match skipWs rest with
        | '\x7d' :: rest2 => some (.pyDict [], rest2)
        | other => (parseObjItems fuel other).map fun (fs, r) => (.pyDict fs, r))
    | '-' :: rest => (parseDigits rest).map fun (n, r) => (.pyInt (-(n : Int)), r)
    | c :: rest =>
      if c.isDigit then (parseDigits (c :: rest)).map fun (n, r) => (.pyInt (n : Int), r)
      else none
    | [] => none

/-- One-or-more comma-separated array items, consuming the closing bracket. -/
def parseArrItems : Nat → List Char → Option (List PyVal × List Char)
  | 0, _ => none
  | fuel + 1, cs =>
    (parseVal fuel cs).bind fun (v, rest) =>
      match skipWs rest with
      | ',' :: rest2 =>
          (parseArrItems fuel rest2).map fun (vs, r) => (v :: vs, r)
      | ']' :: rest2 => some ([v], rest2)
      | _ => none

/-- One-or-more comma-separated object members, consuming the closing brace. -/
def parseObjItems : Nat → List Char → Option (List (String × PyVal) × List Char)
  | 0, _ => none
  | fuel + 1, cs =>
    match skipWs cs with
    | '"' :: rest =>
      (parseStringRest rest).bind fun (key, rest2) =>
        match skipWs rest2 with
        | ':' :: rest3 =>
          (parseVal fuel rest3).bind fun (v, rest4) =>
            match skipWs rest4 with
            | ',' :: rest5 =>
                (parseObjItems fuel rest5).map fun (fs, r) => ((key, v) :: fs, r)
            | '\x7d' :: rest5 => some ([(key, v)], rest5)
            | _ => none
        | _ => none
    | _ => none

end

/-- Model of `json.loads`: parse one document and require only whitespace
after it; anything else raises `JSONDecodeError`, modeled as `none`. -/
def jsonLoads (s : String) : Option PyVal :=
  let cs := s.toList
  match parseVal (cs.length + 1) cs with
  | some (v, rest) => if (skipWs rest).isEmpty then some v else none
  | none => none

/-- The attributes of the native `terminal_info()` result that `HealthCheck`
reads. -/
structure TerminalRec where
  connected : Bool
  trade_allowed : Bool
  build : Int
deriving DecidableEq

/-- A native multi-dimensional numeric buffer: raw bytes, dtype name,
shape. -/
structure NDArr where
  data : List Nat
  dtype : String
  shape : List Nat
deriving DecidableEq

/-- The `NumpyArray` protobuf message. -/
structure NumpyArrayMsg where
  data : List Nat
  dtype : String
  shape : List Nat
deriving DecidableEq

/-- `MT5ServiceServicer._numpy_to_proto` (bridge.py lines 165-173):
`None` becomes the descriptor with empty bytes, empty dtype and empty
shape; otherwise the fields are copied verbatim. -/
def numpyToProto : Option NDArr → NumpyArrayMsg
  | none => ⟨[], "", []⟩
  | some a => ⟨a.data, a.dtype, a.shape⟩

/-- `MT5ServiceServicer._materialize_single` (bridge.py lines 94-111),
applied to the `_asdict` image of the native result: `None` passes
through; otherwise each field named in `nested` whose value is
namedtuple-like is replaced by its `_asdict` mapping. -/
def materializeSingle (result : Option RecordDict) (nested : List String) :
    Option RecordDict :=
  match result with
  | none => none
  | some data =>
    if nested.isEmpty then some data
    else some (data.map fun kv =>
      if kv.1 ∈ nested then
        match kv.2 with
        | .record fs => (kv.1, .pyDict fs)
        | v => (kv.1, v)
      else kv)

/-- `MT5ServiceServicer._materialize_tuple` (bridge.py lines 113-124):
`None` passes through; a tuple of records becomes the list of their
`_asdict` images (which is how native record sequences are modeled). -/
def materializeTuple (result : Option (List RecordDict)) : Option (List RecordDict) :=
  result

/-- The `DictList` marshaling shared by the `_get` methods (e.g. bridge.py
lines 825-829): `None` becomes an empty item list, otherwise each dict is
serialized independently. -/
def dictListOf (result : Option (List RecordDict)) : List String :=
  match materializeTuple result with
  | none => []
  | some items => items.map fun d => jsonDumps (.pyDict d)

/-- The oracle for the loaded native MetaTrader5 module: one field per
native entry point the embedded service methods call.  Query functions
returning tuples of records are modeled as returning the list of `_asdict`
images. -/
structure Native where
  terminal_info : Option TerminalRec
  last_error : Int × String
  version : Option (Int × Int × Int)
  symbol_info : String → Option RecordDict
  symbols_get : Option String → Option (List RecordDict)
  copy_rates_range : String → Int → Int → Int → Option NDArr
  positions_get : List (String × PyVal) → Option (List RecordDict)
  history_deals_get : Option (Int × Int) → List (String × PyVal) → Option (List RecordDict)
  order_check : PyVal → Option RecordDict
  init : List (String × PyVal) → Bool

/-- Outcome of the lazy native-module load (`_load_mt5`, bridge.py lines
68-76): either the loaded handle or the import-failure reason. -/
abbrev LoadState := Except String Native

/-- The failures a service method can propagate across the RPC boundary. -/
inductive BridgeError where
  | moduleUnavailable (reason : String)
  | jsonDecode (input : String)
deriving DecidableEq

/-- `true` exactly on the module-unavailable failure kind. -/
def isModuleUnavailableErr : BridgeError → Bool
  | .moduleUnavailable _ => true
  | .jsonDecode _ => false

/-- `MT5ServiceServicer._ensure_mt5_loaded` (bridge.py lines 78-84): a
failed import propagates as the module-unavailable failure carrying
the import error's reason; a successful load yields the handle.  (The
`RuntimeError` branch at lines 82-84 is unreachable: a successful
`_load_mt5` always leaves the handle non-null.) -/
def ensureLoaded : LoadState → Except BridgeError Native
  | .error reason => .error (.moduleUnavailable reason)
  | .ok m => .ok m

/-- `HealthStatus` response message. -/
structure HealthStatus where
  healthy : Bool
  mt5_available : Bool
  connected : Bool
  trade_allowed : Bool
  build : Int
  reason : String
deriving DecidableEq

/-- How Python formats the `last_error()` tuple into the f-string
`f"Terminal not connected: ..."`: `(code, \x27message\x27)`. -/
def formatPyTuple (e : Int × String) : String :=
  "(" ++ toString e.1 ++ ", \x27" ++ e.2 ++ "\x27)"

/-- `MT5ServiceServicer.HealthCheck` (bridge.py lines 193-250).  The load
state argument is the outcome the lazy load has (or would have): an
already-loaded handle and a load succeeding on this call both yield `.ok`;
`.error` is the caught load exception with its reason.  (The second
`if not mt5_loaded` branch at lines 215-223 is unreachable: after a
successful `_load_mt5` the handle is non-null.) -/
def HealthCheck (st : LoadState) : HealthStatus :=
  match st with
  | .error e =>
    ⟨false, false, false, false, 0, "MT5 module load failed: " ++ e⟩
  | .ok m =>
    match m.terminal_info with
    | none =>
      ⟨false, true, false, false, 0,
        "Terminal not connected: " ++ formatPyTuple m.last_error⟩
    | some t => ⟨t.connected, true, t.connected, t.trade_allowed, t.build, ""⟩

/-- `MT5ServiceServicer.Initialize` (bridge.py lines 252-280): ensure the
module, build the kwargs from the supplied parameters, call the native
`initialize` entry point, wrap the boolean. -/
def Initialize (st : LoadState) (r : InitRequest) : Except BridgeError (Bool × Bool) :=
  match ensureLoaded st with
  | .error e => .error e
  | .ok m => .ok (m.init (initKwargs r), true)

/-- `MT5ServiceServicer.Version` (bridge.py lines 312-326): `None` maps to
the zero version, otherwise the tuple's components are copied (the build is
stringified). -/
def Version (st : LoadState) : Except BridgeError ((Int × Int × String) × Bool) :=
  match ensureLoaded st with
  | .error e => .error e
  | .ok m =>
    match m.version with
    | none => .ok ((0, 0, ""), true)
    | some (a, b, c) => .ok ((a, b, toString c), true)

/-- `MT5ServiceServicer.LastError` (bridge.py lines 328-336). -/
def LastError (st : LoadState) : Except BridgeError ((Int × String) × Bool) :=
  match ensureLoaded st with
  | .error e => .error e
  | .ok m => .ok ((m.last_error.1, m.last_error.2), true)

/-- `MT5ServiceServicer.SymbolInfo` (bridge.py lines 541-554).  The second
component records whether the native `symbol_info` lookup was invoked. -/
def SymbolInfo (st : LoadState) (symbol : String) :
    Except BridgeError (String × Bool) :=
  match ensureLoaded st with
  | .error e => .error e
  | .ok m =>
    if _validate_symbol symbol = false then .ok ("", false)
    else .ok (_dict_to_json (materializeSingle (m.symbol_info symbol) []), true)

/-- `MT5ServiceServicer.SymbolsGet` (bridge.py lines 511-539): the group
filter is read under `HasField` and then gated by `if group:`, so a
present-but-empty group behaves like an absent one. -/
def SymbolsGet (st : LoadState) (group : Option String) :
    Except BridgeError (SymbolsResponse × Bool) :=
  match ensureLoaded st with
  | .error e => .error e
  | .ok m =>
    let g := match group with
      | some s => if s.isEmpty then none else some s
      | none => none
    .ok (symbolsGetCore (m.symbols_get g), true)

/-- `MT5ServiceServicer.CopyRatesRange` (bridge.py lines 635-660): the
symbol is validated first, then the date range; only when both pass is the
native module called. -/
def CopyRatesRange (st : LoadState) (symbol : String)
    (timeframe date_from date_to : Int) :
    Except BridgeError (NumpyArrayMsg × Bool) :=
  match ensureLoaded st with
  | .error e => .error e
  | .ok m =>
    if _validate_symbol symbol = false then .ok (numpyToProto none, false)
    else if _validate_date_range (.epoch date_from) (.epoch date_to) = false then
      .ok (numpyToProto none, false)
    else
      .ok (numpyToProto (m.copy_rates_range symbol timeframe date_from date_to), true)

/-- `MT5ServiceServicer.PositionsGet` (bridge.py lines 802-829). -/
def PositionsGet (st : LoadState) (r : PositionsRequest) :
    Except BridgeError (List String × Bool) :=
  match ensureLoaded st with
  | .error e => .error e
  | .ok m => .ok (dictListOf (m.positions_get (sgtKwargs r)), true)

/-- `MT5ServiceServicer.HistoryDealsGet` (bridge.py lines 936-976). -/
def HistoryDealsGet (st : LoadState) (r : HistoryRequest) :
    Except BridgeError (List String × Bool) :=
  match ensureLoaded st with
  | .error e => .error e
  | .ok m =>
    let args := historyCallArgs r
    .ok (dictListOf (m.history_deals_get args.1 args.2), true)

/-- `MT5ServiceServicer.OrderCheck` (bridge.py lines 759-771):
`json.loads(request.json_request)` is not guarded, so a malformed blob
raises `json.JSONDecodeError`, which propagates to the caller. -/
def OrderCheck (st : LoadState) (json_request : String) :
    Except BridgeError (String × Bool) :=
  match ensureLoaded st with
  | .error e => .error e
  | .ok m =>
    match jsonLoads json_request with
    | none => .error (.jsonDecode json_request)
    | some order_dict =>
      .ok (_dict_to_json (materializeSingle (m.order_check order_dict) ["request"]),
        true)

/-- A concrete native-module oracle used by closed witness statements. -/
def natStub : Native where
  terminal_info := none
  last_error := (1, "Success")
  version := none
  symbol_info := fun _ => none
  symbols_get := fun _ => none
  copy_rates_range := fun _ _ _ _ => none
  positions_get := fun _ => none
  history_deals_get := fun _ _ => none
  order_check := fun _ => none
  init := fun _ => false

/-- bridge.py constants category (21 names). -/
def timeframeNames : List String := [
  "TIMEFRAME_M1", "TIMEFRAME_M2", "TIMEFRAME_M3",
  "TIMEFRAME_M4", "TIMEFRAME_M5", "TIMEFRAME_M6",
  "TIMEFRAME_M10", "TIMEFRAME_M12", "TIMEFRAME_M15",
  "TIMEFRAME_M20", "TIMEFRAME_M30", "TIMEFRAME_H1",
  "TIMEFRAME_H2", "TIMEFRAME_H3", "TIMEFRAME_H4",
  "TIMEFRAME_H6", "TIMEFRAME_H8", "TIMEFRAME_H12",
  "TIMEFRAME_D1", "TIMEFRAME_W1", "TIMEFRAME_MN1"]

/-- bridge.py constants category (9 names). -/
def orderTypeNames : List String := [
  "ORDER_TYPE_BUY", "ORDER_TYPE_SELL", "ORDER_TYPE_BUY_LIMIT",
  "ORDER_TYPE_SELL_LIMIT", "ORDER_TYPE_BUY_STOP", "ORDER_TYPE_SELL_STOP",
  "ORDER_TYPE_BUY_STOP_LIMIT", "ORDER_TYPE_SELL_STOP_LIMIT", "ORDER_TYPE_CLOSE_BY"]

/-- bridge.py constants category (6 names). -/
def tradeActionNames : List String := [
  "TRADE_ACTION_DEAL", "TRADE_ACTION_PENDING", "TRADE_ACTION_SLTP",
  "TRADE_ACTION_MODIFY", "TRADE_ACTION_REMOVE", "TRADE_ACTION_CLOSE_BY"]

/-- bridge.py constants category (4 names). -/
def orderFillingNames : List String := [
  "ORDER_FILLING_FOK", "ORDER_FILLING_IOC", "ORDER_FILLING_RETURN",
  "ORDER_FILLING_BOC"]

/-- bridge.py constants category (4 names). -/
def orderTimeNames : List String := [
  "ORDER_TIME_GTC", "ORDER_TIME_DAY", "ORDER_TIME_SPECIFIED",
  "ORDER_TIME_SPECIFIED_DAY"]

/-- bridge.py constants category (10 names). -/
def orderStateNames : List String := [
  "ORDER_STATE_STARTED", "ORDER_STATE_PLACED", "ORDER_STATE_CANCELED",
  "ORDER_STATE_PARTIAL", "ORDER_STATE_FILLED", "ORDER_STATE_REJECTED",
  "ORDER_STATE_EXPIRED", "ORDER_STATE_REQUEST_ADD", "ORDER_STATE_REQUEST_MODIFY",
  "ORDER_STATE_REQUEST_CANCEL"]

/-- bridge.py constants category (2 names). -/
def positionTypeNames : List String := [
  "POSITION_TYPE_BUY", "POSITION_TYPE_SELL"]

/-- bridge.py constants category (4 names). -/
def positionReasonNames : List String := [
  "POSITION_REASON_CLIENT", "POSITION_REASON_MOBILE", "POSITION_REASON_WEB",
  "POSITION_REASON_EXPERT"]

/-- bridge.py constants category (18 names). -/
def dealTypeNames : List String := [
  "DEAL_TYPE_BUY", "DEAL_TYPE_SELL", "DEAL_TYPE_BALANCE",
  "DEAL_TYPE_CREDIT", "DEAL_TYPE_CHARGE", "DEAL_TYPE_CORRECTION",
  "DEAL_TYPE_BONUS", "DEAL_TYPE_COMMISSION", "DEAL_TYPE_COMMISSION_DAILY",
  "DEAL_TYPE_COMMISSION_MONTHLY", "DEAL_TYPE_COMMISSION_AGENT_DAILY", "DEAL_TYPE_COMMISSION_AGENT_MONTHLY",
  "DEAL_TYPE_INTEREST", "DEAL_TYPE_BUY_CANCELED", "DEAL_TYPE_SELL_CANCELED",
  "DEAL_DIVIDEND", "DEAL_DIVIDEND_FRANKED", "DEAL_TAX"]

/-- bridge.py constants category (4 names). -/
def dealEntryNames : List String := [
  "DEAL_ENTRY_IN", "DEAL_ENTRY_OUT", "DEAL_ENTRY_INOUT",
  "DEAL_ENTRY_OUT_BY"]

/-- bridge.py constants category (10 names). -/
def dealReasonNames : List String := [
  "DEAL_REASON_CLIENT", "DEAL_REASON_MOBILE", "DEAL_REASON_WEB",
  "DEAL_REASON_EXPERT", "DEAL_REASON_SL", "DEAL_REASON_TP",
  "DEAL_REASON_SO", "DEAL_REASON_ROLLOVER", "DEAL_REASON_VMARGIN",
  "DEAL_REASON_SPLIT"]

/-- bridge.py constants category (3 names). -/
def copyTicksNames : List String := [
  "COPY_TICKS_ALL", "COPY_TICKS_INFO", "COPY_TICKS_TRADE"]

/-- bridge.py constants category (4 names). -/
def bookTypeNames : List String := [
  "BOOK_TYPE_SELL", "BOOK_TYPE_BUY", "BOOK_TYPE_SELL_MARKET",
  "BOOK_TYPE_BUY_MARKET"]

/-- bridge.py constants category (5 names). -/
def symbolTradeModeNames : List String := [
  "SYMBOL_TRADE_MODE_DISABLED", "SYMBOL_TRADE_MODE_LONGONLY", "SYMBOL_TRADE_MODE_SHORTONLY",
  "SYMBOL_TRADE_MODE_CLOSEONLY", "SYMBOL_TRADE_MODE_FULL"]

/-- bridge.py constants category (3 names). -/
def accountTradeModeNames : List String := [
  "ACCOUNT_TRADE_MODE_DEMO", "ACCOUNT_TRADE_MODE_CONTEST", "ACCOUNT_TRADE_MODE_REAL"]

/-- bridge.py constants category (28 names). -/
def tradeRetcodeNames : List String := [
  "TRADE_RETCODE_REQUOTE", "TRADE_RETCODE_REJECT", "TRADE_RETCODE_CANCEL",
  "TRADE_RETCODE_PLACED", "TRADE_RETCODE_DONE", "TRADE_RETCODE_DONE_PARTIAL",
  "TRADE_RETCODE_ERROR", "TRADE_RETCODE_TIMEOUT", "TRADE_RETCODE_INVALID",
  "TRADE_RETCODE_INVALID_VOLUME", "TRADE_RETCODE_INVALID_PRICE", "TRADE_RETCODE_INVALID_STOPS",
  "TRADE_RETCODE_TRADE_DISABLED", "TRADE_RETCODE_MARKET_CLOSED", "TRADE_RETCODE_NO_MONEY",
  "TRADE_RETCODE_PRICE_CHANGED", "TRADE_RETCODE_PRICE_OFF", "TRADE_RETCODE_INVALID_EXPIRATION",
  "TRADE_RETCODE_ORDER_CHANGED", "TRADE_RETCODE_TOO_MANY_REQUESTS", "TRADE_RETCODE_NO_CHANGES",
  "TRADE_RETCODE_LOCKED", "TRADE_RETCODE_FROZEN", "TRADE_RETCODE_INVALID_FILL",
  "TRADE_RETCODE_CONNECTION", "TRADE_RETCODE_ONLY_REAL", "TRADE_RETCODE_LIMIT_ORDERS",
  "TRADE_RETCODE_LIMIT_VOLUME"]

/-- The probed-name catalogue of `GetConstants` (bridge.py lines 354-470),
in code order. -/
def constantsCatalogue : List String :=
  timeframeNames ++ orderTypeNames ++ tradeActionNames ++
  orderFillingNames ++ orderTimeNames ++ orderStateNames ++
  positionTypeNames ++ positionReasonNames ++ dealTypeNames ++
  dealEntryNames ++ dealReasonNames ++ copyTicksNames ++
  bookTypeNames ++ symbolTradeModeNames ++ accountTradeModeNames ++
  tradeRetcodeNames

/-- Python `isinstance(val, int)`: true for ints and for bools (`bool` is a
subclass of `int`). -/
def isIntLike : PyVal → Bool
  | .pyInt _ => true
  | .pyBool _ => true
  | _ => false

/-- Does the module expose attribute `n` with an integer value? -/
def exposesIntB (env : String → Option PyVal) (n : String) : Bool :=
  match env n with
  | some v => isIntLike v
  | none => false

/-- The `_add_constants` helper of `GetConstants` (bridge.py lines
347-352): probe each name with `hasattr`/`getattr` and keep the
integer-valued ones.  The per-category calls build one dict; since the
catalogue's 135 names are pairwise distinct, the dict is modeled as the
single filtered association list over the whole catalogue. -/
def addConstants (env : String → Option PyVal) (names : List String) :
    List (String × PyVal) :=
  names.filterMap fun name =>
    match env name with
    | some val => if isIntLike val then some (name, val) else none
    | none => none

/-- `MT5ServiceServicer.GetConstants` (bridge.py lines 338-473), as the
assembled constants table of the loaded module `env`. -/
def getConstants (env : String → Option PyVal) : List (String × PyVal) :=
  addConstants env constantsCatalogue

/-- A module exposing exactly the 21 timeframe names, 9 order types and 6
trade actions, each as the integer 1. -/
def env36 : String → Option PyVal := fun n =>
  if n ∈ timeframeNames ++ orderTypeNames ++ tradeActionNames
  then some (.pyInt 1) else none

/-- A string with a nonempty left part of an append is nonempty. -/
theorem append_ne_empty_of_left (a b : String) (h : a.length ≠ 0) : a ++ b ≠ "" := by
  intro he
  have hl := congrArg String.length he
  rw [String.length_append] at hl
  simp at hl
  exact h hl.1

/-- C7: the validators are pure boolean checks: `_validate_count` fails
exactly on counts `≤ 0` (so it fails on 0 and -5 and passes on 1), and
`_validate_date_range` fails exactly when the normalized lower bound
exceeds the upper (so 10..5 fails while 5..10 and the equal-bounds 5..5
pass). -/
theorem validators_pure_decisions :
    _validate_count 0 = false ∧
    _validate_count (-5) = false ∧
    _validate_count 1 = true ∧
    (∀ c : Int, _validate_count c = false ↔ c ≤ 0) ∧
    _validate_date_range (.epoch 10) (.epoch 5) = false ∧
    _validate_date_range (.epoch 5) (.epoch 10) = true ∧
    _validate_date_range (.epoch 5) (.epoch 5) = true ∧
    (∀ f t : DateVal, _validate_date_range f t = false ↔ t.norm < f.norm) := by
  refine ⟨by decide, by decide, by decide, ?_, by decide, by decide, by decide, ?_⟩
  · intro c
    unfold _validate_count
    split <;> simp_all
  · intro f t
    unfold _validate_date_range
    split <;> rename_i h
    · exact iff_of_true rfl h
    · exact iff_of_false (by simp) h

/-- C8 (counterexample): the one-space symbol is blank (whitespace-only)
yet passes `_validate_symbol`, contradicting the claim that every blank
symbol fails validation — the code's `if not symbol:` only rejects the
empty string. -/
theorem validate_symbol_blank_passes :
    (" ".toList.all Char.isWhitespace) = true ∧ _validate_symbol " " = true := by
  constructor
  · decide
  · rfl

/-- C8 (amended): `_validate_symbol` fails exactly on the empty string;
every nonempty symbol — whitespace-only ones included — passes. -/
theorem validate_symbol_fails_iff_empty :
    ∀ s : String, _validate_symbol s = false ↔ s = "" := by
  intro s
  unfold _validate_symbol
  split <;> rename_i h
  · exact iff_of_true rfl ((String.isEmpty_iff s).mp h)
  · refine iff_of_false (by simp) ?_
    intro he
    exact h ((String.isEmpty_iff s).mpr he)

/-- C9 (counterexample): a present-but-empty mapping is serialized by
`_dict_to_json` to the two-character object text, not to the empty string —
the code only maps the absent (`None`) source to `""`. -/
theorem dict_to_json_empty_mapping :
    _dict_to_json (some []) = "\x7b\x7d" ∧ _dict_to_json (some []) ≠ "" := by
  constructor
  · rfl
  · intro h
    exact absurd (congrArg String.length h) (by decide)

/-- C9 (amended): `_dict_to_json` yields `""` exactly when its source is
absent (`None`); a present mapping — the empty one included, which yields
the two-character object text — is serialized so that every nested
record-like value is flattened to a plain mapping and every
numeric-array-like value becomes a plain nested list (serialization
agrees with serializing the fully flattened mapping). -/
theorem dict_to_json_flattening :
    _dict_to_json none = "" ∧
    (∀ fs : RecordDict, _dict_to_json (some fs) = jsonDumps (pyFlatten (.pyDict fs))) ∧
    _dict_to_json (some []) = "\x7b\x7d" := by
  refine ⟨rfl, ?_, rfl⟩
  intro fs
  show jsonDumps (.pyDict fs) = _
  rw [jsonDumps_pyFlatten]

/-- C5: failed parameter validation short-circuits before any native call:
`SymbolInfo` on the empty symbol answers the empty text with the native
lookup never invoked, and `CopyRatesRange` on the reversed range
1700000000..1600000000 answers the empty numeric descriptor (empty bytes,
empty dtype, empty shape) with the native module never invoked, whatever
the loaded module and the other arguments are. -/
theorem validation_short_circuits :
    (∀ m : Native, SymbolInfo (.ok m) "" = .ok ("", false)) ∧
    (∀ (m : Native) (symbol : String) (timeframe : Int),
      CopyRatesRange (.ok m) symbol timeframe 1700000000 1600000000 =
        .ok (⟨[], "", []⟩, false)) := by
  constructor
  · intro m
    rfl
  · intro m symbol timeframe
    show (if _validate_symbol symbol = false then _ else _) = _
    by_cases h : _validate_symbol symbol = false <;> simp [h] <;> rfl

/-- Chunk-size profile of the `SymbolsGet` chunk loop: splitting `xs` into
chunks of 500 yields `xs.length / 500` full chunks followed by one chunk of
`xs.length % 500` elements when the length is not a multiple of 500. -/
theorem chunkList500_map_length {α : Type} (xs : List α) :
    (chunkList xs 500).map List.length =
      List.replicate (xs.length / 500) 500 ++
        (if xs.length % 500 = 0 then [] else [xs.length % 500]) := by
  suffices H : ∀ (n : Nat) (ys : List α), ys.length = n →
      (chunkList ys 500).map List.length =
        List.replicate (ys.length / 500) 500 ++
          (if ys.length % 500 = 0 then [] else [ys.length % 500]) from
    H xs.length xs rfl
  intro n
  induction n using Nat.strong_induction_on with
  | _ n ih =>
    intro ys hn
    rw [chunkList]
    split <;> rename_i h
    · have hye : ys = [] := by
        rcases Bool.or_eq_true_iff.mp h with h1 | h1
        · exact List.isEmpty_iff.mp h1
        · exact absurd h1 (by decide)
      subst hye
      simp
    · have hyne : ys ≠ [] := by
        intro he
        exact h (by simp [he])
      have hpos : 0 < ys.length := List.length_pos.mpr hyne
      have hdl : (ys.drop 500).length = ys.length - 500 := List.length_drop 500 ys
      rw [List.map_cons,
        ih (ys.length - 500) (by omega) (ys.drop 500) hdl, hdl,
        List.length_take]
      by_cases h5 : 500 < ys.length
      · have e1 : min 500 ys.length = 500 := Nat.min_eq_left (Nat.le_of_lt h5)
        have e2 : (ys.length - 500) % 500 = ys.length % 500 := by omega
        have e3 : ys.length / 500 = (ys.length - 500) / 500 + 1 := by omega
        rw [e1, e2, e3, List.replicate_succ, List.cons_append]
      · have e1 : min 500 ys.length = ys.length := Nat.min_eq_right (by omega)
        have e2 : ys.length - 500 = 0 := by omega
        rw [e1, e2, show (0 : Nat) / 500 = 0 from rfl,
          show (0 : Nat) % 500 = 0 from rfl, if_pos rfl, List.replicate_zero,
          List.nil_append]
        by_cases h500 : ys.length = 500
        · rw [h500]
          decide
        · have d1 : ys.length / 500 = 0 := by omega
          have d2 : ys.length % 500 = ys.length := by omega
          rw [d1, d2, if_neg (by omega)]
          simp

/-- C2: `SymbolsGet` chunking is complete and size-faithful: for any
materialized sequence the reported total is the element count `n`, the
chunk texts are exactly the serializations of the consecutive 500-element
slices, the per-chunk element counts are `n / 500` chunks of 500 followed
by one of `n % 500` when `n` is not a multiple of 500 and they sum to `n`,
and the number of chunks is `ceil(n / 500) = (n + 499) / 500`; in
particular 9001 elements yield 19 chunks with total 9001, and 1200
elements yield total 1200 with chunk sizes 500, 500, 200. -/
theorem symbols_get_chunk_completeness :
    (∀ items : List RecordDict,
      (symbolsGetCore (some items)).total = items.length ∧
      (symbolsGetCore (some items)).chunks = (chunkList items 500).map chunkText ∧
      ((chunkList items 500).map List.length).sum = items.length ∧
      ((chunkList items 500).map List.length =
        List.replicate (items.length / 500) 500 ++
          (if items.length % 500 = 0 then [] else [items.length % 500])) ∧
      (symbolsGetCore (some items)).chunks.length = (items.length + 499) / 500) ∧
    (symbolsGetCore (some (List.replicate 9001 ([] : RecordDict)))).total = 9001 ∧
    (symbolsGetCore (some (List.replicate 9001 ([] : RecordDict)))).chunks.length = 19 ∧
    (symbolsGetCore (some (List.replicate 1200 ([] : RecordDict)))).total = 1200 ∧
    (chunkList (List.replicate 1200 ([] : RecordDict)) 500).map List.length =
      [500, 500, 200] := by
  have G : ∀ items : List RecordDict,
      (symbolsGetCore (some items)).total = items.length ∧
      (symbolsGetCore (some items)).chunks = (chunkList items 500).map chunkText ∧
      ((chunkList items 500).map List.length).sum = items.length ∧
      ((chunkList items 500).map List.length =
        List.replicate (items.length / 500) 500 ++
          (if items.length % 500 = 0 then [] else [items.length % 500])) ∧
      (symbolsGetCore (some items)).chunks.length = (items.length + 499) / 500 := by
    intro items
    have hc := chunkList500_map_length items
    refine ⟨rfl, rfl, ?_, hc, ?_⟩
    · rw [hc, List.sum_append, List.sum_replicate, smul_eq_mul]
      have hdm := Nat.div_add_mod items.length 500
      split <;> rename_i hz
      · simp only [List.sum_nil]
        omega
      · simp only [List.sum_cons, List.sum_nil]
        omega
    · show ((chunkList items 500).map chunkText).length = _
      rw [List.length_map, ← List.length_map (f := List.length), hc,
        List.length_append, List.length_replicate]
      split <;> rename_i hz
      · simp only [List.length_nil]
        omega
      · simp only [List.length_cons, List.length_nil]
        omega
  refine ⟨G, ?_, ?_, ?_, ?_⟩
  · rw [(G _).1, List.length_replicate]
  · rw [(G _).2.2.2.2, List.length_replicate]
  · rw [(G _).1, List.length_replicate]
  · rw [(G _).2.2.2.1, List.length_replicate]
    decide

/-- Python truthiness of an optional string filter after the `HasField`
read: absent and present-but-empty are both falsy. -/
def truthyStr : Option String → Bool
  | some s => !s.isEmpty
  | none => false

/-- Python truthiness of an optional integer filter after the `HasField`
read: absent and present-but-zero are both falsy. -/
def truthyInt : Option Int → Bool
  | some t => !(t = 0 : Bool)
  | none => false

/-- C3 (counterexample): supplying `portable` (as `false`) forwards nothing
— the same kwargs as leaving every field absent — while supplying it as
`true` forwards it: presence of `portable` does not determine forwarding,
its value does, contradicting the claim that absent-versus-present decides
forwarding for each of the six parameters. -/
theorem init_portable_value_not_presence :
    initKwargs ⟨none, none, none, none, none, some false⟩ = [] ∧
    (some false : Option Bool).isSome = (some true : Option Bool).isSome ∧
    initKwargs ⟨none, none, none, none, none, some true⟩ =
      [("portable", .pyBool true)] :=
  ⟨rfl, rfl, rfl⟩

/-- C3 (amended): `Initialize` forwards exactly the supplied parameters for
the five presence-tracked ones — supplying only `server` forwards exactly
the one `server` keyword, supplying nothing forwards zero keywords, and in
general the forwarded keyword names are determined by presence of
path/login/password/server/timeout — while `portable` is forwarded exactly
when its value is `true` (a supplied `false` is omitted like an absent
one). -/
theorem init_kwargs_forwarding :
    (∀ s : String, initKwargs ⟨none, none, none, some s, none, none⟩ =
      [("server", .pyStr s)]) ∧
    initKwargs ⟨none, none, none, none, none, none⟩ = [] ∧
    (∀ r : InitRequest, (initKwargs r).map Prod.fst =
      (if r.path.isSome then ["path"] else []) ++
      (if r.login.isSome then ["login"] else []) ++
      (if r.password.isSome then ["password"] else []) ++
      (if r.server.isSome then ["server"] else []) ++
      (if r.timeout.isSome then ["timeout"] else []) ++
      (if r.portableVal then ["portable"] else [])) := by
  refine ⟨fun s => rfl, rfl, ?_⟩
  intro r
  obtain ⟨p, l, pw, s, t, pb⟩ := r
  rcases pb with _ | b
  · cases p <;> cases l <;> cases pw <;> cases s <;> cases t <;> rfl
  · cases b <;> (cases p <;> cases l <;> cases pw <;> cases s <;> cases t <;> rfl)

/-- C4 (counterexample): a `PositionsGet` symbol filter that the caller
actually supplied — as the empty string — is not forwarded (the kwargs
equal those of a request with no symbol at all), while the same filter
supplied as a nonempty string is forwarded: forwarding depends on the
filter's value, contradicting the claim that it depends only on presence. -/
theorem positions_filter_value_not_presence :
    sgtKwargs ⟨some "", none, none⟩ = [] ∧
    (⟨some "", none, none⟩ : PositionsRequest).symbol.isSome = true ∧
    sgtKwargs ⟨some "", none, none⟩ = sgtKwargs ⟨none, none, none⟩ ∧
    sgtKwargs ⟨some "EURUSD", none, none⟩ = [("symbol", .pyStr "EURUSD")] :=
  ⟨rfl, rfl, rfl, rfl⟩

/-- C4 (amended): in `PositionsGet`/`OrdersGet` and the history `_get`
methods a filter is forwarded exactly when it is supplied AND truthy (a
nonempty string, a nonzero ticket/position): a filter supplied with the
empty/zero value is omitted from the native call exactly like an absent
one; the history date bounds are passed positionally exactly when both are
present (irrespective of value). -/
theorem get_filters_truthy_forwarding :
    (∀ g t, sgtKwargs ⟨some "", g, t⟩ = sgtKwargs ⟨none, g, t⟩) ∧
    (∀ r : PositionsRequest, (sgtKwargs r).map Prod.fst =
      (if truthyStr r.symbol then ["symbol"] else []) ++
      (if truthyStr r.group then ["group"] else []) ++
      (if truthyInt r.ticket then ["ticket"] else [])) ∧
    (∀ r : HistoryRequest, (historyCallArgs r).2.map Prod.fst =
      (if truthyStr r.group then ["group"] else []) ++
      (if truthyInt r.ticket then ["ticket"] else []) ++
      (if truthyInt r.position then ["position"] else [])) ∧
    (∀ r : HistoryRequest, (historyCallArgs r).1 =
      r.date_from.bind fun f => r.date_to.map fun t => (f, t)) := by
  refine ⟨fun g t => rfl, ?_, ?_, ?_⟩
  · intro r
    obtain ⟨os, og, ot⟩ := r
    rcases os with _ | s <;> rcases og with _ | g <;> rcases ot with _ | t <;>
      simp only [sgtKwargs, truthyStr, truthyInt, List.map_append, List.nil_append,
        List.append_nil, List.map_nil, if_false, Bool.not_eq_true'] <;>
      split_ifs <;> simp_all
  · intro r
    obtain ⟨odf, odt, og, ot, op⟩ := r
    rcases odf with _ | f <;> rcases odt with _ | d <;>
      rcases og with _ | g <;> rcases ot with _ | t <;> rcases op with _ | p <;>
      simp only [historyCallArgs, historyKwargs, truthyStr, truthyInt,
        List.map_append, List.nil_append, List.append_nil, List.map_nil,
        if_false, Bool.not_eq_true'] <;>
      split_ifs <;> simp_all
  · intro r
    obtain ⟨odf, odt, og, ot, op⟩ := r
    rcases odf with _ | f <;> rcases odt with _ | d <;> rfl

/-- C6: `HealthCheck` is a total function of the load state and native
signals (it never propagates a failure), and it degrades gracefully: with
the module loaded but `terminal_info()` absent it reports
healthy=false, mt5_available=true, connected=false, trade_allowed=false,
build=0 with a non-empty reason; when the load attempt itself fails it
reports mt5_available=false with a non-empty reason carrying the load
error. -/
theorem health_check_degradation :
    (∀ m : Native, m.terminal_info = none →
      HealthCheck (.ok m) =
        ⟨false, true, false, false, 0,
          "Terminal not connected: " ++ formatPyTuple m.last_error⟩ ∧
      (HealthCheck (.ok m)).reason ≠ "") ∧
    (∀ reason : String,
      (HealthCheck (.error reason)).mt5_available = false ∧
      (HealthCheck (.error reason)).reason = "MT5 module load failed: " ++ reason ∧
      (HealthCheck (.error reason)).reason ≠ "") := by
  constructor
  · intro m hti
    have he : HealthCheck (.ok m) =
        ⟨false, true, false, false, 0,
          "Terminal not connected: " ++ formatPyTuple m.last_error⟩ := by
      simp only [HealthCheck]
      rw [hti]
    refine ⟨he, ?_⟩
    rw [he]
    exact append_ne_empty_of_left _ _ (by decide)
  · intro reason
    exact ⟨rfl, rfl, append_ne_empty_of_left _ _ (by decide)⟩

/-- C6 witness: the degraded status at a concrete loaded module whose
`terminal_info()` is absent. -/
theorem health_check_degradation_witness :
    HealthCheck (.ok natStub) =
      ⟨false, true, false, false, 0,
        "Terminal not connected: " ++ formatPyTuple natStub.last_error⟩ ∧
    (HealthCheck (.ok natStub)).reason ≠ "" :=
  health_check_degradation.1 natStub rfl

/-- The response of `x` propagates no failure other than the
module-unavailable one, and that failure carries exactly the load
state's import-failure reason. -/
def propagatesOnlyLoadFailure {α : Type} (st : LoadState) (x : Except BridgeError α) :
    Prop :=
  ∀ e, x = .error e → ∃ r, e = .moduleUnavailable r ∧ st = .error r

/-- An always-successful response propagates nothing. -/
theorem propagates_of_ok {α : Type} (st : LoadState) (v : α) :
    propagatesOnlyLoadFailure st (Except.ok v) :=
  fun _ he => Except.noConfusion he

/-- A response equal to the module-unavailable failure on the failed load
state propagates only it. -/
theorem propagates_of_eq_error {α : Type} (r : String) (x : Except BridgeError α)
    (hx : x = .error (.moduleUnavailable r)) :
    propagatesOnlyLoadFailure (.error r) x := by
  intro e he
  rw [hx] at he
  injection he with h
  exact ⟨r, h.symm, rfl⟩

/-- C1 (amended): across the embedded service methods the only propagated
failure is the module-unavailable error, which carries the
underlying import-failure reason — with the one exception of `OrderCheck` (and the
identically-shaped `OrderSend`), which additionally propagates the JSON
deserialization error when its `json_request` blob is malformed; every
validator rejection and empty native result still yields a successful
default response. -/
theorem error_propagation :
    ∀ (st : LoadState) (sym : String) (tf df dt : Int) (g : Option String)
      (preq : PositionsRequest) (hreq : HistoryRequest) (ireq : InitRequest)
      (jreq : String),
      propagatesOnlyLoadFailure st (SymbolInfo st sym) ∧
      propagatesOnlyLoadFailure st (CopyRatesRange st sym tf df dt) ∧
      propagatesOnlyLoadFailure st (SymbolsGet st g) ∧
      propagatesOnlyLoadFailure st (PositionsGet st preq) ∧
      propagatesOnlyLoadFailure st (HistoryDealsGet st hreq) ∧
      propagatesOnlyLoadFailure st (LastError st) ∧
      propagatesOnlyLoadFailure st (Version st) ∧
      propagatesOnlyLoadFailure st (Initialize st ireq) ∧
      (∀ e, OrderCheck st jreq = .error e →
        (∃ r, e = .moduleUnavailable r ∧ st = .error r) ∨
        (e = .jsonDecode jreq ∧ jsonLoads jreq = none)) := by
  intro st sym tf df dt g preq hreq ireq jreq
  cases st with
  | error r =>
    refine ⟨propagates_of_eq_error r _ rfl, propagates_of_eq_error r _ rfl,
      propagates_of_eq_error r _ rfl, propagates_of_eq_error r _ rfl,
      propagates_of_eq_error r _ rfl, propagates_of_eq_error r _ rfl,
      propagates_of_eq_error r _ rfl, propagates_of_eq_error r _ rfl, ?_⟩
    intro e he
    left
    exact propagates_of_eq_error r _ rfl e he
  | ok m =>
    refine ⟨?_, ?_, propagates_of_ok _ _, propagates_of_ok _ _,
      propagates_of_ok _ _, propagates_of_ok _ _, ?_, propagates_of_ok _ _, ?_⟩
    · simp only [SymbolInfo, ensureLoaded]
      split <;> exact propagates_of_ok _ _
    · simp only [CopyRatesRange, ensureLoaded]
      split
      · exact propagates_of_ok _ _
      · split <;> exact propagates_of_ok _ _
    · simp only [Version, ensureLoaded]
      split <;> exact propagates_of_ok _ _
    · simp only [OrderCheck, ensureLoaded]
      split <;> rename_i hj
      · intro e he
        injection he with h
        exact Or.inr ⟨h.symm, hj⟩
      · exact fun e he => absurd he (fun hc => Except.noConfusion hc)

/-- C1 witness: with a failed load carrying a concrete import reason, the
propagated failure is exactly the module-unavailable error with that
reason. -/
theorem error_propagation_witness :
    ∃ r, BridgeError.moduleUnavailable "no module named MetaTrader5" =
        .moduleUnavailable r ∧
      (Except.error "no module named MetaTrader5" : LoadState) = .error r := by
  have h := error_propagation (.error "no module named MetaTrader5") "EURUSD" 1 0 0
    none ⟨none, none, none⟩ ⟨none, none, none, none, none⟩
    ⟨none, none, none, none, none, none⟩ "[]"
  exact h.1 (.moduleUnavailable "no module named MetaTrader5") rfl

/-- C1 (counterexample): with the module loaded, `OrderCheck` on the
malformed blob `"not json"` propagates the JSON deserialization failure —
a propagated failure that is not the module-unavailable error,
contradicting the claim that module unavailability is the only failure
that reaches the caller. -/
theorem order_check_decode_error :
    OrderCheck (.ok natStub) "not json" = .error (.jsonDecode "not json") ∧
    isModuleUnavailableErr (.jsonDecode "not json") = false := by
  exact ⟨rfl, rfl⟩

/-- `filterMap` keeps every element when the function succeeds on all of
them. -/
theorem length_filterMap_of_all_some {α β : Type} (f : α → Option β) :
    ∀ l : List α, (∀ a ∈ l, (f a).isSome = true) →
      (l.filterMap f).length = l.length := by
  intro l
  induction l with
  | nil => intro _; rfl
  | cons a l ih =>
    intro h
    have ha := h a (List.mem_cons_self a l)
    cases hf : f a with
    | none =>
      rw [hf] at ha
      exact absurd ha (by simp)
    | some b =>
      simp only [List.filterMap_cons, hf, List.length_cons]
      exact congrArg Nat.succ (ih fun x hx => h x (List.mem_cons_of_mem _ hx))

/-- C10 (counterexample): a native module exposing exactly the 21 timeframe
names, 9 order types and 6 trade actions as integers — which satisfies the
claim's premise — yields a constants table of exactly 36 entries, not the
claimed ≥ 50. -/
theorem get_constants_minimal_module_36 :
    ((timeframeNames ++ orderTypeNames ++ tradeActionNames).all
      (exposesIntB env36)) = true ∧
    (getConstants env36).length = 36 ∧
    ¬ (50 ≤ (getConstants env36).length) := by
  refine ⟨by decide, by decide, by decide⟩

/-- C10 (amended): every entry of the constants table has a key drawn from
the fixed probed-name catalogue, carries the module's value for that key,
and that value passes the integer check; conversely every probed name the
module defines as an integer appears in the table; and against a module
exposing at least the 21 timeframe names, 9 order types and 6 trade
actions as integers the table has at least 36 entries, with
ORDER_TYPE_BUY and ORDER_TYPE_SELL among its keys. -/
theorem get_constants_table :
    (∀ (env : String → Option PyVal) (kv : String × PyVal), kv ∈ getConstants env →
      kv.1 ∈ constantsCatalogue ∧ env kv.1 = some kv.2 ∧ isIntLike kv.2 = true) ∧
    (∀ (env : String → Option PyVal) (n : String), n ∈ constantsCatalogue →
      exposesIntB env n = true → n ∈ (getConstants env).map Prod.fst) ∧
    (∀ env : String → Option PyVal,
      (∀ n ∈ timeframeNames ++ orderTypeNames ++ tradeActionNames,
        exposesIntB env n = true) →
      36 ≤ (getConstants env).length ∧
      "ORDER_TYPE_BUY" ∈ (getConstants env).map Prod.fst ∧
      "ORDER_TYPE_SELL" ∈ (getConstants env).map Prod.fst) := by
  have part1 : ∀ (env : String → Option PyVal) (kv : String × PyVal),
      kv ∈ getConstants env →
      kv.1 ∈ constantsCatalogue ∧ env kv.1 = some kv.2 ∧ isIntLike kv.2 = true := by
    intro env kv hkv
    obtain ⟨n, hn, hf⟩ := List.mem_filterMap.mp hkv
    cases he : env n with
    | none =>
      simp only [he] at hf
      exact absurd hf (by simp)
    | some val =>
      simp only [he] at hf
      by_cases hi : isIntLike val = true
      · rw [if_pos hi] at hf
        injection hf with hf
        subst hf
        exact ⟨hn, he, hi⟩
      · rw [if_neg hi] at hf
        exact absurd hf (by simp)
  have part2 : ∀ (env : String → Option PyVal) (n : String), n ∈ constantsCatalogue →
      exposesIntB env n = true → n ∈ (getConstants env).map Prod.fst := by
    intro env n hn hexp
    cases he : env n with
    | none => simp [exposesIntB, he] at hexp
    | some v =>
      have hi : isIntLike v = true := by simpa [exposesIntB, he] using hexp
      refine List.mem_map.mpr ⟨(n, v), List.mem_filterMap.mpr ⟨n, hn, ?_⟩, rfl⟩
      simp [he, hi]
  refine ⟨part1, part2, ?_⟩
  intro env h
  have hsome : ∀ a ∈ timeframeNames ++ orderTypeNames ++ tradeActionNames,
      ((fun name => match env name with
        | some val => if isIntLike val then some (name, val) else none
        | none => none) a).isSome = true := by
    intro a ha
    have hx := h a ha
    cases he : env a with
    | none => simp [exposesIntB, he] at hx
    | some v =>
      have hi : isIntLike v = true := by simpa [exposesIntB, he] using hx
      simp [he, hi]
  have hassoc : constantsCatalogue =
      (timeframeNames ++ orderTypeNames ++ tradeActionNames) ++
        (orderFillingNames ++ orderTimeNames ++ orderStateNames ++
          positionTypeNames ++ positionReasonNames ++ dealTypeNames ++
          dealEntryNames ++ dealReasonNames ++ copyTicksNames ++
          bookTypeNames ++ symbolTradeModeNames ++ accountTradeModeNames ++
          tradeRetcodeNames) := by
    simp only [constantsCatalogue, List.append_assoc]
  refine ⟨?_, ?_, ?_⟩
  · show 36 ≤ (addConstants env constantsCatalogue).length
    rw [addConstants, hassoc, List.filterMap_append, List.length_append,
      length_filterMap_of_all_some _ _ hsome]
    have h36 : (timeframeNames ++ orderTypeNames ++ tradeActionNames).length = 36 := by
      decide
    omega
  · exact part2 env "ORDER_TYPE_BUY" (by decide) (h "ORDER_TYPE_BUY" (by decide))
  · exact part2 env "ORDER_TYPE_SELL" (by decide) (h "ORDER_TYPE_SELL" (by decide))

/-- C10 witness: the amended table bounds at the concrete minimal module. -/
theorem get_constants_table_witness :
    36 ≤ (getConstants env36).length ∧
    "ORDER_TYPE_BUY" ∈ (getConstants env36).map Prod.fst ∧
    "ORDER_TYPE_SELL" ∈ (getConstants env36).map Prod.fst :=
  get_constants_table.2.2 env36 (by decide)

end MT5Bridge
